import Mathlib

/-!
Verification of the cosigner coordination core of
src/electrum/gui/qt/transaction_wait_dialog.py (Rutanio-Electrum).

The dialog class TimeoutWaitDialog watches the shared cosigner-pool
key-value store while counting down a timeout.  We embed the
coordination-relevant state and transitions of that class; purely
presentational work (labels, layouts, amount and fee formatting) is out
of scope, as are the external collaborators imported from
electrum_rutanio (BIP32 key parsing, sha256d hashing, the cosigner-pool
server module): those are not under src/ and appear here only through
their interfaces.
-/

/-- DURATION_INT = 60 * 10, the fixed countdown duration in seconds. -/
def DURATION_INT : Int := 60 * 10

/-- Terminal/active status of a coordination session.  The Python class
has a single close() path; the constructors below record which part of
the code invoked it: update() closing because no watched lock is held
(completed), timer_timeout() closing at countdown zero after setting
self.timed_out (timedOut), or the caller/user closing the dialog
(cancelled). -/
inductive SessState where
  | active
  | timedOut
  | completed
  | cancelled
deriving DecidableEq, Repr

/-- Qt close() on an open dialog closes it; on an already-closed dialog
it is a no-op (closeEvent's dialogs.remove swallows the ValueError for a
dialog already removed from the registry). -/
def closeAs (reason : SessState) : SessState → SessState
  | SessState.active => reason
  | st => st

/-- The shared cosigner-pool store (the server object of
electrum_rutanio.plugins.cosigner_pool, not under src/).  The source
reads server.get(hash + "_lock") — a lock token holding the expiry
timestamp, none when the key is absent or falsy — and
server.get(hash + "_name") — the display name of the holder.  A read
may fail with StoreUnavailableError (network failure), modelled as
Except.error.  get_current_time is the store clock. -/
structure Store where
  get_lock : String → Except Unit (Option Int)
  get_name : String → Except Unit (Option String)
  current_time : Int

/-- A wallet keystore as the dialog consumes it: the fingerprint
bh2u(sha256d(compressed pubkey of the master xpub)) — derived by
external electrum_rutanio code, kept opaque here — and the
is_watching_only() classification. -/
structure Keystore where
  keyhash : String
  watching_only : Bool
deriving DecidableEq, Repr

/-- The wallet as consumed by __init__: whether type(wallet) ==
Multisig_Wallet, and its keystores in dict iteration (insertion)
order. -/
structure Wallet where
  multisig : Bool
  keystores : List Keystore
deriving DecidableEq, Repr

/-- The transaction handle.  The dialog deep-copies it and calls
tx.deserialize(), an opaque external operation that either succeeds or
raises; only that outcome matters to the coordination core. -/
structure Tx where
  deser : Except String Unit

/-- Coordination state of one TimeoutWaitDialog session: the mutable
fields of the Python object that the coordination logic reads or
writes, plus the session status (Active, or the terminal state recorded
when close() first succeeded). -/
structure TimeoutWaitDialog where
  time_left_int : Int
  timed_out : Bool
  currently_signing : Option String
  keyhashes : List String
  cosigner_list : List String
  st : SessState
deriving DecidableEq, Repr

/-- The dialog is shown right after creation and hidden by close();
isVisible() coincides with the session not having closed. -/
def TimeoutWaitDialog.isVisible (s : TimeoutWaitDialog) : Bool :=
  match s.st with
  | SessState.active => true
  | _ => false

/-- Accumulator of the keystore loop in __init__: keyhashes (signing
fingerprints), cosigner_list (watch-only fingerprints), the locks dict
in insertion order, and currently_signing.  The Python sets/dict are
modelled as lists in insertion order; since fingerprints are distinct
per keystore this is faithful, and the pieces of logic below that read
them (existence of a held lock, last write wins) are order-insensitive
to duplicates anyway. -/
structure ScanAcc where
  keyhashes : List String
  cosigner_list : List String
  locks : List (String × Option Int)
  currently_signing : Option String
deriving DecidableEq, Repr

def initAcc : ScanAcc :=
  { keyhashes := [], cosigner_list := [], locks := [], currently_signing := none }

/-- The keystore loop of __init__ (lines 96-109): classify each
keystore; for a watch-only one, read its lock key, record it in locks,
and when the lock is truthy read the name key and, when that is truthy
(a non-empty string), overwrite currently_signing.  A raising store
read propagates. -/
def scanKeystores (store : Store) (acc : ScanAcc) : List Keystore → Except Unit ScanAcc
  | [] => Except.ok acc
  | ks :: rest =>
    if ks.watching_only = false then
      scanKeystores store { acc with keyhashes := acc.keyhashes ++ [ks.keyhash] } rest
    else
      match store.get_lock ks.keyhash with
      | Except.error e => Except.error e
      | Except.ok lockv =>
        let acc1 := { acc with
          cosigner_list := acc.cosigner_list ++ [ks.keyhash],
          locks := acc.locks ++ [(ks.keyhash, lockv)] }
        match lockv with
        | some _ =>
          (match store.get_name ks.keyhash with
          | Except.error e => Except.error e
          | Except.ok namev =>
            let acc2 := match namev with
              | some n => if n = "" then acc1 else { acc1 with currently_signing := some n }
              | none => acc1
            scanKeystores store acc2 rest)
        | none => scanKeystores store acc1 rest

/-- One iteration step of the countdown-seeding loop (lines 152-156):
a lock record carrying an expiry overwrites the running value with
DURATION_INT - (current_time - expiry); one without keeps it. -/
def seedStep (now : Int) (t : Int) (p : String × Option Int) : Int :=
  match p.2 with
  | some e => DURATION_INT - (now - e)
  | none => t

/-- self.time_left_int = DURATION_INT, then the loop over
self.locks.items() overwriting it for every truthy expiry. -/
def seedTimeLeft (now : Int) (locks : List (String × Option Int)) : Int :=
  locks.foldl (seedStep now) DURATION_INT

/-- The lock_present loop of update() (lines 192-196): read every
watched fingerprint's lock key; the result is whether any is truthy.
A raising read aborts the loop (and update) with the exception; no
session field has been mutated at that point. -/
def lockPresent (store : Store) : List String → Except Unit Bool
  | [] => Except.ok false
  | h :: rest =>
    match store.get_lock h with
    | Except.error e => Except.error e
    | Except.ok lockv =>
      match lockPresent store rest with
      | Except.error e => Except.error e
      | Except.ok b => Except.ok (lockv.isSome || b)

/-- The coordination part of update() (lines 190-199): on evaluations
where time_left_int % 10 == 0 (Python's % on a positive modulus agrees
with Int.emod), re-query every watched lock; if none is present, force
time_left_int to 0 and close() the dialog.  The remainder of update()
renders labels and is out of scope. -/
def TimeoutWaitDialog.update (store : Store) (s : TimeoutWaitDialog) :
    Except Unit TimeoutWaitDialog :=
  if s.time_left_int % 10 = 0 then
    match lockPresent store s.cosigner_list with
    | Except.error e => Except.error e
    | Except.ok true => Except.ok s
    | Except.ok false =>
      Except.ok { s with time_left_int := 0, st := closeAs SessState.completed s.st }
  else Except.ok s

/-- The head of timer_timeout() (lines 169-174): decrement
time_left_int, and if it is now exactly 0 while the dialog is visible,
set timed_out and close(). -/
def TimeoutWaitDialog.countdownStep (s : TimeoutWaitDialog) : TimeoutWaitDialog :=
  let s1 := { s with time_left_int := s.time_left_int - 1 }
  if s1.time_left_int = 0 ∧ s1.isVisible = true then
    { s1 with timed_out := true, st := closeAs SessState.timedOut s1.st }
  else s1

/-- timer_timeout() (lines 169-176): the countdown step followed by
self.update(); a store read raising inside update propagates out of the
slot, leaving the session as the countdown step left it. -/
def TimeoutWaitDialog.timer_timeout (store : Store) (s : TimeoutWaitDialog) :
    Except Unit TimeoutWaitDialog :=
  TimeoutWaitDialog.update store (TimeoutWaitDialog.countdownStep s)

/-- One scheduler tick of a session.  Modelled from the spec for the
parts outside src/: the QTimer drives only live (non-closed) sessions —
a closed dialog leaves the registry and is no longer ticked — and an
exception escaping the timer slot is suppressed by the surrounding
event loop (the documented skip-the-poll policy), so the state as
mutated before the raise — the countdown step, since update mutates
nothing before its store reads — is kept and ticking resumes next
second. -/
def tick (store : Store) (s : TimeoutWaitDialog) : TimeoutWaitDialog :=
  match s.st with
  | SessState.active =>
    (match TimeoutWaitDialog.timer_timeout store s with
    | Except.ok s2 => s2
    | Except.error _ => TimeoutWaitDialog.countdownStep s)
  | _ => s

/-- The caller or user closing the dialog (Close button / escape key /
reject(), all routed through close() and closeEvent()): an Active
session becomes Cancelled; a closed dialog stays exactly as it is
(close() is a no-op and closeEvent's dialogs.remove already swallows
the ValueError of a second removal). -/
def TimeoutWaitDialog.cancel (s : TimeoutWaitDialog) : TimeoutWaitDialog :=
  { s with st := closeAs SessState.cancelled s.st }

/-- Errors out of __init__: any deserialization failure is re-raised as
SerializationError (lines 74-78); a raising store read during the
keystore scan or the creation-time update calls propagates as the store
error (it is not caught anywhere in the file). -/
inductive InitError where
  | serializationError
  | storeError
deriving DecidableEq, Repr

/-- __init__ (coordination-relevant lines): deep-copy and deserialize
the transaction (any failure raises SerializationError), scan the
keystores when the wallet is a Multisig_Wallet, seed the countdown from
the locks dict, then evaluate update() twice (once from timer_start(),
once directly at the end of __init__). -/
def mkTimeoutWaitDialog (tx : Tx) (w : Wallet) (store : Store) :
    Except InitError TimeoutWaitDialog :=
  match tx.deser with
  | Except.error _ => Except.error InitError.serializationError
  | Except.ok _ =>
    match (if w.multisig then scanKeystores store initAcc w.keystores
           else Except.ok initAcc) with
    | Except.error _ => Except.error InitError.storeError
    | Except.ok acc =>
      let s0 : TimeoutWaitDialog :=
        { time_left_int := seedTimeLeft store.current_time acc.locks,
          timed_out := false,
          currently_signing := acc.currently_signing,
          keyhashes := acc.keyhashes,
          cosigner_list := acc.cosigner_list,
          st := SessState.active }
      match TimeoutWaitDialog.update store s0 with
      | Except.error _ => Except.error InitError.storeError
      | Except.ok s1 =>
        match TimeoutWaitDialog.update store s1 with
        | Except.error _ => Except.error InitError.storeError
        | Except.ok s2 => Except.ok s2

/-- Outcome of show_timeout_wait_dialog: the dialog was built, appended
to the registry, shown and returned; or SerializationError was caught,
reported through parent.show_critical, and None returned. -/
inductive ShowResult where
  | shown (d : TimeoutWaitDialog)
  | reportedSerializationError
deriving DecidableEq, Repr

/-- show_timeout_wait_dialog (lines 54-63): only SerializationError is
caught and reported; any other exception out of __init__ propagates to
the caller. -/
def show_timeout_wait_dialog (tx : Tx) (w : Wallet) (store : Store) :
    Except Unit ShowResult :=
  match mkTimeoutWaitDialog tx w store with
  | Except.ok d => Except.ok (ShowResult.shown d)
  | Except.error InitError.serializationError => Except.ok ShowResult.reportedSerializationError
  | Except.error InitError.storeError => Except.error ()

/-- Claim-side description for C1: the expiry of the last lock record
in iteration order that carries one. -/
def lastExpiry : List (String × Option Int) → Option Int
  | [] => none
  | p :: rest =>
    match lastExpiry rest with
    | some e => some e
    | none => p.2

/-! Concrete instances used by witness and counterexample theorems. -/

def okTx : Tx := { deser := Except.ok () }

def badTx : Tx := { deser := Except.error "cannot parse" }

/-- A multisig wallet with a single watch-only cosigner keystore. -/
def msWallet : Wallet := { multisig := true, keystores := [{ keyhash := "h1", watching_only := true }] }

/-- A non-multisig wallet (empty watched set). -/
def plainWallet : Wallet := { multisig := false, keystores := [] }

/-- Lock held with expiry 991, no name published, store clock 1000:
seeds the countdown to 600 - (1000 - 991) = 591. -/
def store991 : Store :=
  { get_lock := fun _ => Except.ok (some 991),
    get_name := fun _ => Except.ok none,
    current_time := 1000 }

/-- Same lock, but the name key now resolves to "alice". -/
def storeAlice : Store :=
  { get_lock := fun _ => Except.ok (some 991),
    get_name := fun _ => Except.ok (some "alice"),
    current_time := 1000 }

/-- Stale lock: expiry 97 at store clock 800, so the observed lock is
703 seconds past its expiry and the seeded countdown is
600 - 703 = -103. -/
def storeStale703 : Store :=
  { get_lock := fun _ => Except.ok (some 97),
    get_name := fun _ => Except.ok none,
    current_time := 800 }

/-- Stale lock: expiry 100 at store clock 701, seeding the countdown
to 600 - 601 = -1. -/
def storeStale601 : Store :=
  { get_lock := fun _ => Except.ok (some 100),
    get_name := fun _ => Except.ok none,
    current_time := 701 }

/-- A store whose lock reads fail (StoreUnavailableError). -/
def storeDown : Store :=
  { get_lock := fun _ => Except.error (),
    get_name := fun _ => Except.ok none,
    current_time := 0 }

/-- A store holding no locks at all. -/
def storeEmpty : Store :=
  { get_lock := fun _ => Except.ok none,
    get_name := fun _ => Except.ok none,
    current_time := 0 }

/-- A store where every lock key is held (expiry token 5). -/
def storeHeld : Store :=
  { get_lock := fun _ => Except.ok (some 5),
    get_name := fun _ => Except.ok none,
    current_time := 0 }

/-- The session built by mkTimeoutWaitDialog okTx msWallet store991:
countdown 591, no signer name known. -/
def sess591 : TimeoutWaitDialog :=
  { time_left_int := 591, timed_out := false, currently_signing := none,
    keyhashes := [], cosigner_list := ["h1"], st := SessState.active }

/-- An active mid-session state on a minor-cadence value. -/
def sessC2 : TimeoutWaitDialog :=
  { time_left_int := 590, timed_out := false, currently_signing := none,
    keyhashes := [], cosigner_list := ["h1"], st := SessState.active }

/-- An active session one second from timeout. -/
def sessC3 : TimeoutWaitDialog :=
  { time_left_int := 1, timed_out := false, currently_signing := none,
    keyhashes := [], cosigner_list := ["h1"], st := SessState.active }

/-- An active mid-session state off the minor cadence. -/
def sessC4 : TimeoutWaitDialog :=
  { time_left_int := 47, timed_out := false, currently_signing := none,
    keyhashes := [], cosigner_list := ["h1"], st := SessState.active }

/-- The session built by mkTimeoutWaitDialog okTx msWallet storeStale703:
seeded countdown -103 (already stale). -/
def staleSession : TimeoutWaitDialog :=
  { time_left_int := -103, timed_out := false, currently_signing := none,
    keyhashes := [], cosigner_list := ["h1"], st := SessState.active }

/-- The session built by mkTimeoutWaitDialog okTx msWallet storeStale601:
seeded countdown -1. -/
def c5Session : TimeoutWaitDialog :=
  { time_left_int := -1, timed_out := false, currently_signing := none,
    keyhashes := [], cosigner_list := ["h1"], st := SessState.active }

/-- An active session one second before a minor-cadence poll, with a
known signer name. -/
def sessC6 : TimeoutWaitDialog :=
  { time_left_int := 21, timed_out := false, currently_signing := some "bob",
    keyhashes := [], cosigner_list := ["h1"], st := SessState.active }

/-- A session already in the TimedOut terminal state. -/
def sessC9 : TimeoutWaitDialog :=
  { time_left_int := 0, timed_out := true, currently_signing := none,
    keyhashes := [], cosigner_list := ["h1"], st := SessState.timedOut }

/-- A scan accumulator used to instantiate the creation-scan statement. -/
def accC7 : ScanAcc :=
  { keyhashes := [], cosigner_list := [], locks := [], currently_signing := none }

/-- One watch-only keystore, as a scan-step input. -/
def ksC7 : Keystore := { keyhash := "h1", watching_only := true }

/-! Helper lemmas shared by the claim theorems. -/

lemma isVisible_iff (s : TimeoutWaitDialog) :
    s.isVisible = true ↔ s.st = SessState.active := by
  obtain ⟨t, tdo, cs, kh, cl, st⟩ := s
  cases st <;> simp [TimeoutWaitDialog.isVisible]

lemma seed_foldl (now : Int) :
    ∀ (l : List (String × Option Int)) (a : Int),
      List.foldl (seedStep now) a l =
        (match lastExpiry l with
         | some e => DURATION_INT - (now - e)
         | none => a) := by
  intro l
  induction l with
  | nil => intro a; rfl
  | cons p rest ih =>
    intro a
    rw [List.foldl_cons, ih]
    cases hrest : lastExpiry rest with
    | some e => simp [lastExpiry, hrest]
    | none => cases hp : p.2 <;> simp [lastExpiry, hrest, seedStep, hp]

lemma seed_all_none (now : Int) (l : List (String × Option Int))
    (h : ∀ p ∈ l, p.2 = none) : seedTimeLeft now l = DURATION_INT := by
  have hle : lastExpiry l = none := by
    induction l with
    | nil => rfl
    | cons p rest ih =>
      have hrest : lastExpiry rest = none := by
        apply ih
        intro q hq
        exact h q (List.mem_cons_of_mem p hq)
      have hp : p.2 = none := h p (List.mem_cons_self p rest)
      simp [lastExpiry, hrest, hp]
  unfold seedTimeLeft
  rw [seed_foldl now l DURATION_INT, hle]

lemma lockPresent_all_absent (store : Store) (l : List String)
    (h : ∀ x ∈ l, store.get_lock x = Except.ok none) :
    lockPresent store l = Except.ok false := by
  induction l with
  | nil => rfl
  | cons x rest ih =>
    have hx : store.get_lock x = Except.ok none := h x (List.mem_cons_self x rest)
    have hrest : lockPresent store rest = Except.ok false := by
      apply ih
      intro y hy
      exact h y (List.mem_cons_of_mem x hy)
    simp [lockPresent, hx, hrest]

lemma update_mod_ne (store : Store) (s : TimeoutWaitDialog)
    (h : ¬ s.time_left_int % 10 = 0) :
    TimeoutWaitDialog.update store s = Except.ok s := by
  simp [TimeoutWaitDialog.update, h]

lemma update_lock_held (store : Store) (s : TimeoutWaitDialog)
    (h : s.time_left_int % 10 = 0)
    (hlp : lockPresent store s.cosigner_list = Except.ok true) :
    TimeoutWaitDialog.update store s = Except.ok s := by
  simp [TimeoutWaitDialog.update, h, hlp]

lemma update_no_lock (store : Store) (s : TimeoutWaitDialog)
    (h : s.time_left_int % 10 = 0)
    (hlp : lockPresent store s.cosigner_list = Except.ok false) :
    TimeoutWaitDialog.update store s =
      Except.ok { s with time_left_int := 0, st := closeAs SessState.completed s.st } := by
  simp [TimeoutWaitDialog.update, h, hlp]

lemma update_store_down (store : Store) (s : TimeoutWaitDialog)
    (h : s.time_left_int % 10 = 0)
    (hlp : lockPresent store s.cosigner_list = Except.error ()) :
    TimeoutWaitDialog.update store s = Except.error () := by
  simp [TimeoutWaitDialog.update, h, hlp]

lemma countdownStep_no_close (s : TimeoutWaitDialog)
    (h : ¬ (s.time_left_int - 1 = 0 ∧ s.st = SessState.active)) :
    TimeoutWaitDialog.countdownStep s =
      { s with time_left_int := s.time_left_int - 1 } := by
  unfold TimeoutWaitDialog.countdownStep
  rw [if_neg]
  intro hc
  apply h
  refine ⟨hc.1, ?_⟩
  have := (isVisible_iff { s with time_left_int := s.time_left_int - 1 }).mp hc.2
  exact this

lemma countdownStep_timeout (s : TimeoutWaitDialog)
    (h1 : s.time_left_int - 1 = 0) (h2 : s.st = SessState.active) :
    TimeoutWaitDialog.countdownStep s =
      { s with time_left_int := 0, timed_out := true, st := SessState.timedOut } := by
  unfold TimeoutWaitDialog.countdownStep
  rw [if_pos]
  · simp only [h1, h2, closeAs]
  · constructor
    · exact h1
    · exact (isVisible_iff { s with time_left_int := s.time_left_int - 1 }).mpr h2

lemma tick_eq_active (store : Store) (s : TimeoutWaitDialog)
    (hst : s.st = SessState.active) :
    tick store s =
      (match TimeoutWaitDialog.timer_timeout store s with
       | Except.ok s2 => s2
       | Except.error _ => TimeoutWaitDialog.countdownStep s) := by
  unfold tick
  rw [hst]

/-! Claim theorems. -/

/-- C1: at session creation the countdown is seeded by iterating over
the watched lock records; every record carrying an expiry overwrites
the value with DURATION_INT - (current_time - expiry), so the last such
record in iteration order wins, and when no record carries an expiry
the countdown starts at DURATION_INT = 600 seconds. -/
theorem seed_last_expiry_wins (now : Int) (locks : List (String × Option Int)) :
    seedTimeLeft now locks =
      (match lastExpiry locks with
       | some e => DURATION_INT - (now - e)
       | none => DURATION_INT) ∧ DURATION_INT = 600 := by
  constructor
  · unfold seedTimeLeft
    exact seed_foldl now locks DURATION_INT
  · decide

/-- C2: on any update evaluation of an Active session whose countdown
is congruent to 0 modulo 10, the store is re-queried for every watched
fingerprint, and when none of them holds a lock the countdown is forced
to 0 and the session transitions to Completed on that same tick,
whatever the countdown was. -/
theorem minor_cadence_no_lock_completes (store : Store) (s : TimeoutWaitDialog)
    (hst : s.st = SessState.active) (hmod : s.time_left_int % 10 = 0)
    (hnl : ∀ x ∈ s.cosigner_list, store.get_lock x = Except.ok none) :
    TimeoutWaitDialog.update store s =
      Except.ok { s with time_left_int := 0, st := SessState.completed } := by
  have hlp := lockPresent_all_absent store s.cosigner_list hnl
  rw [update_no_lock store s hmod hlp, hst]
  rfl

/-- Witness for C2: a session with 590 seconds left completes at once
when no watched fingerprint holds a lock. -/
theorem minor_cadence_no_lock_completes_witness :
    sessC2.st = SessState.active ∧ sessC2.time_left_int % 10 = 0 ∧
    (∀ x ∈ sessC2.cosigner_list, storeEmpty.get_lock x = Except.ok none) ∧
    TimeoutWaitDialog.update storeEmpty sessC2 =
      Except.ok { sessC2 with time_left_int := 0, st := SessState.completed } :=
  ⟨rfl, by decide, fun x _ => rfl,
    minor_cadence_no_lock_completes storeEmpty sessC2 rfl (by decide) (fun x _ => rfl)⟩

/-- C3: when the per-second decrement of an Active session brings the
countdown to exactly 0, the session transitions to TimedOut on that
tick (whatever the store answers). -/
theorem countdown_zero_times_out (store : Store) (s : TimeoutWaitDialog)
    (hst : s.st = SessState.active) (ht : s.time_left_int = 1) :
    (tick store s).st = SessState.timedOut ∧ (tick store s).timed_out = true ∧
      (tick store s).time_left_int = 0 := by
  have h10 : ((0 : Int)) % 10 = 0 := by decide
  have hcd : TimeoutWaitDialog.countdownStep s =
      { s with time_left_int := 0, timed_out := true, st := SessState.timedOut } :=
    countdownStep_timeout s (by omega) hst
  rw [tick_eq_active store s hst]
  unfold TimeoutWaitDialog.timer_timeout
  rw [hcd]
  cases hlp : lockPresent store s.cosigner_list with
  | error e =>
    cases e
    rw [update_store_down store
      { s with time_left_int := 0, timed_out := true, st := SessState.timedOut } h10 hlp]
    exact ⟨rfl, rfl, rfl⟩
  | ok b =>
    cases b with
    | false =>
      rw [update_no_lock store
        { s with time_left_int := 0, timed_out := true, st := SessState.timedOut } h10 hlp]
      exact ⟨rfl, rfl, rfl⟩
    | true =>
      rw [update_lock_held store
        { s with time_left_int := 0, timed_out := true, st := SessState.timedOut } h10 hlp]
      exact ⟨rfl, rfl, rfl⟩

/-- Witness for C3: a session one second from timeout, with the watched
lock still held, times out on the next tick. -/
theorem countdown_zero_times_out_witness :
    sessC3.st = SessState.active ∧ sessC3.time_left_int = 1 ∧
      ((tick storeHeld sessC3).st = SessState.timedOut ∧
       (tick storeHeld sessC3).timed_out = true ∧
       (tick storeHeld sessC3).time_left_int = 0) :=
  ⟨rfl, rfl, countdown_zero_times_out storeHeld sessC3 rfl rfl⟩

/-- C8: when the transaction handle cannot be deserialized, session
construction fails with SerializationError, show_timeout_wait_dialog
hands no session to the caller and reports the error to the user. -/
theorem deserialization_failure_rejected (tx : Tx) (w : Wallet) (store : Store)
    (msg : String) (h : tx.deser = Except.error msg) :
    mkTimeoutWaitDialog tx w store = Except.error InitError.serializationError ∧
    show_timeout_wait_dialog tx w store = Except.ok ShowResult.reportedSerializationError := by
  have hmk : mkTimeoutWaitDialog tx w store = Except.error InitError.serializationError := by
    unfold mkTimeoutWaitDialog
    rw [h]
  refine ⟨hmk, ?_⟩
  unfold show_timeout_wait_dialog
  rw [hmk]

/-- Witness for C8: a concrete undeserializable transaction. -/
theorem deserialization_failure_rejected_witness :
    badTx.deser = Except.error "cannot parse" ∧
    (mkTimeoutWaitDialog badTx plainWallet storeEmpty = Except.error InitError.serializationError ∧
     show_timeout_wait_dialog badTx plainWallet storeEmpty =
       Except.ok ShowResult.reportedSerializationError) :=
  ⟨rfl, deserialization_failure_rejected badTx plainWallet storeEmpty "cannot parse" rfl⟩

/-- C9: cancelling a session that is already in a terminal state is a
no-op — the session is exactly the same before and after. -/
theorem cancel_terminal_noop (s : TimeoutWaitDialog) (h : s.st ≠ SessState.active) :
    TimeoutWaitDialog.cancel s = s := by
  obtain ⟨t, tdo, cs, kh, cl, st⟩ := s
  cases st with
  | active => exact absurd rfl h
  | timedOut => rfl
  | completed => rfl
  | cancelled => rfl

/-- Witness for C9: cancelling an already timed-out session changes
nothing. -/
theorem cancel_terminal_noop_witness :
    sessC9.st ≠ SessState.active ∧ TimeoutWaitDialog.cancel sessC9 = sessC9 :=
  ⟨by decide, cancel_terminal_noop sessC9 (by decide)⟩

lemma update_preserves_signing (store : Store) (s r : TimeoutWaitDialog)
    (h : TimeoutWaitDialog.update store s = Except.ok r) :
    r.currently_signing = s.currently_signing := by
  unfold TimeoutWaitDialog.update at h
  split at h
  · split at h
    · exact Except.noConfusion h
    · injection h with h2
      subst h2
      rfl
    · injection h with h2
      subst h2
      rfl
  · injection h with h2
    subst h2
    rfl

lemma countdownStep_signing (s : TimeoutWaitDialog) :
    (TimeoutWaitDialog.countdownStep s).currently_signing = s.currently_signing := by
  simp only [TimeoutWaitDialog.countdownStep]
  split <;> rfl

/-- C4 is refuted on the code by its second half: with a stale watched
lock (701 seconds past expiry at observation, beyond the 600-second
duration) the seeded countdown -103 is negative immediately after
creation.  Concretely: one watch-only cosigner, lock expiry 97, store
clock 800. -/
theorem negative_seed_counterexample :
    mkTimeoutWaitDialog okTx msWallet storeStale703 = Except.ok staleSession ∧
    staleSession.time_left_int < 0 :=
  ⟨rfl, by decide⟩

/-- C4 as amended: between consecutive ticks of a session that is
still Active after the tick, time_remaining_seconds decreases by
exactly 1 (in particular it is non-increasing); the never-negative part
of the claim is dropped, since seeding from a stale lock expiry
produces a negative countdown. -/
theorem tick_active_decrements (store : Store) (s : TimeoutWaitDialog)
    (hst : s.st = SessState.active) (hact : (tick store s).st = SessState.active) :
    (tick store s).time_left_int = s.time_left_int - 1 ∧
      (tick store s).time_left_int < s.time_left_int := by
  rw [tick_eq_active store s hst] at hact ⊢
  unfold TimeoutWaitDialog.timer_timeout at hact ⊢
  by_cases h0 : s.time_left_int - 1 = 0
  · exfalso
    have hcd := countdownStep_timeout s h0 hst
    rw [hcd] at hact
    cases hlp : lockPresent store s.cosigner_list with
    | error e =>
      cases e
      rw [update_store_down store
        { s with time_left_int := 0, timed_out := true, st := SessState.timedOut }
        (show (0 : Int) % 10 = 0 by decide) hlp] at hact
      exact SessState.noConfusion hact
    | ok b =>
      cases b with
      | false =>
        rw [update_no_lock store
          { s with time_left_int := 0, timed_out := true, st := SessState.timedOut }
          (show (0 : Int) % 10 = 0 by decide) hlp] at hact
        exact SessState.noConfusion hact
      | true =>
        rw [update_lock_held store
          { s with time_left_int := 0, timed_out := true, st := SessState.timedOut }
          (show (0 : Int) % 10 = 0 by decide) hlp] at hact
        exact SessState.noConfusion hact
  · have hcd := countdownStep_no_close s (fun hc => h0 hc.1)
    rw [hcd] at hact ⊢
    by_cases hmod : (s.time_left_int - 1) % 10 = 0
    · cases hlp : lockPresent store s.cosigner_list with
      | error e =>
        cases e
        rw [update_store_down store { s with time_left_int := s.time_left_int - 1 } hmod hlp]
        refine ⟨rfl, ?_⟩
        show s.time_left_int - 1 < s.time_left_int
        omega
      | ok b =>
        cases b with
        | true =>
          rw [update_lock_held store { s with time_left_int := s.time_left_int - 1 } hmod hlp]
          refine ⟨rfl, ?_⟩
          show s.time_left_int - 1 < s.time_left_int
          omega
        | false =>
          exfalso
          rw [update_no_lock store { s with time_left_int := s.time_left_int - 1 } hmod hlp] at hact
          replace hact : closeAs SessState.completed s.st = SessState.active := hact
          rw [hst] at hact
          exact SessState.noConfusion hact
    · rw [update_mod_ne store { s with time_left_int := s.time_left_int - 1 } hmod]
      refine ⟨rfl, ?_⟩
      show s.time_left_int - 1 < s.time_left_int
      omega

/-- Witness for the amended C4: a held lock and 47 seconds left; the
tick leaves the session Active at 46 seconds. -/
theorem tick_active_decrements_witness :
    sessC4.st = SessState.active ∧ (tick storeHeld sessC4).st = SessState.active ∧
      ((tick storeHeld sessC4).time_left_int = sessC4.time_left_int - 1 ∧
       (tick storeHeld sessC4).time_left_int < sessC4.time_left_int) :=
  ⟨rfl, rfl, tick_active_decrements storeHeld sessC4 rfl rfl⟩

/-- C5 is violated by the code (timer_timeout tests time_left_int == 0
exactly): with the countdown seeded to -1 from a stale lock (expiry
100, store clock 701) the very next tick leaves the session Active at
-2 instead of transitioning to TimedOut, and it can never reach 0 by
decrementing. -/
theorem stale_seed_stays_active :
    mkTimeoutWaitDialog okTx msWallet storeStale601 = Except.ok c5Session ∧
    c5Session.time_left_int = -1 ∧
    (tick storeStale601 c5Session).st = SessState.active ∧
    ¬ (tick storeStale601 c5Session).st = SessState.timedOut ∧
    (tick storeStale601 c5Session).time_left_int = -2 ∧
    (tick storeStale601 c5Session).timed_out = false :=
  ⟨rfl, rfl, rfl, by decide, rfl, rfl⟩

/-- C6: a StoreUnavailableError raised by the lock poll of a
minor-cadence tick is non-fatal: the session keeps its countdown (only
the ordinary per-second decrement applied before the poll), keeps
currently_signing, stays Active (no transition), and is ticked again
at the next second. -/
theorem store_error_poll_skipped (store : Store) (s : TimeoutWaitDialog)
    (hst : s.st = SessState.active) (h1 : ¬ s.time_left_int - 1 = 0)
    (hmod : (s.time_left_int - 1) % 10 = 0)
    (herr : lockPresent store s.cosigner_list = Except.error ()) :
    tick store s = { s with time_left_int := s.time_left_int - 1 } := by
  have hcd := countdownStep_no_close s (fun hc => h1 hc.1)
  rw [tick_eq_active store s hst]
  unfold TimeoutWaitDialog.timer_timeout
  rw [hcd, update_store_down store { s with time_left_int := s.time_left_int - 1 } hmod herr]

/-- Witness for C6: the store is down on the poll at countdown 20; the
session just steps from 21 to 20 with state and name unchanged. -/
theorem store_error_poll_skipped_witness :
    sessC6.st = SessState.active ∧ ¬ sessC6.time_left_int - 1 = 0 ∧
    (sessC6.time_left_int - 1) % 10 = 0 ∧
    lockPresent storeDown sessC6.cosigner_list = Except.error () ∧
    tick storeDown sessC6 =
      { time_left_int := 20, timed_out := false, currently_signing := some "bob",
        keyhashes := [], cosigner_list := ["h1"], st := SessState.active } :=
  ⟨rfl, by decide, by decide, rfl,
    store_error_poll_skipped storeDown sessC6 rfl (by decide) (by decide) rfl⟩

/-- Counterexample to C7: a session created while the lock was held but
no name was published (so currently_signing is none); on the very next
tick the countdown hits 590 so the minor-cadence poll runs, the store
now resolves the name key to "alice" (non-empty) with the lock still
held, yet currently_signing stays none — later polls never update it
(update() never reads name keys). -/
theorem later_poll_name_ignored :
    mkTimeoutWaitDialog okTx msWallet store991 = Except.ok sess591 ∧
    sess591.currently_signing = none ∧
    storeAlice.get_name "h1" = Except.ok (some "alice") ∧
    storeAlice.get_lock "h1" = Except.ok (some 991) ∧
    (tick storeAlice sess591).time_left_int = 590 ∧
    (tick storeAlice sess591).st = SessState.active ∧
    (tick storeAlice sess591).currently_signing = none :=
  ⟨rfl, rfl, rfl, rfl, rfl, rfl, rfl⟩

/-- C7 as amended: currently_signing is updated from a watched lock's
non-empty name key only during the creation-time scan (last such value
wins), and after creation no tick ever changes it, so once set it
persists (sticky) until the session terminates. -/
theorem currently_signing_creation_only_sticky :
    (∀ (store : Store) (acc : ScanAcc) (ks : Keystore) (rest : List Keystore)
       (e : Int) (n : String),
      ks.watching_only = true → store.get_lock ks.keyhash = Except.ok (some e) →
      store.get_name ks.keyhash = Except.ok (some n) → ¬ n = "" →
      scanKeystores store acc (ks :: rest) =
        scanKeystores store
          { keyhashes := acc.keyhashes,
            cosigner_list := acc.cosigner_list ++ [ks.keyhash],
            locks := acc.locks ++ [(ks.keyhash, some e)],
            currently_signing := some n } rest) ∧
    (∀ (store : Store) (s : TimeoutWaitDialog),
      (tick store s).currently_signing = s.currently_signing) := by
  constructor
  · intro store acc ks rest e n hwo hl hn hne
    simp [scanKeystores, hwo, hl, hn, hne]
  · intro store s
    cases hst : s.st with
    | active =>
      rw [tick_eq_active store s hst]
      unfold TimeoutWaitDialog.timer_timeout
      cases hu : TimeoutWaitDialog.update store (TimeoutWaitDialog.countdownStep s) with
      | ok r =>
        have h2 := update_preserves_signing store (TimeoutWaitDialog.countdownStep s) r hu
        rw [h2, countdownStep_signing s]
      | error e =>
        exact countdownStep_signing s
    | timedOut =>
      unfold tick
      rw [hst]
    | completed =>
      unfold tick
      rw [hst]
    | cancelled =>
      unfold tick
      rw [hst]

/-- Witness for the amended C7: the creation scan sets currently_signing
to "alice" from the held lock's name key, and a tick leaves
currently_signing unchanged. -/
theorem currently_signing_creation_only_sticky_witness :
    scanKeystores storeAlice accC7 [ksC7] =
      scanKeystores storeAlice
        { keyhashes := [], cosigner_list := ["h1"], locks := [("h1", some 991)],
          currently_signing := some "alice" } [] ∧
    (tick storeAlice sessC4).currently_signing = sessC4.currently_signing :=
  ⟨currently_signing_creation_only_sticky.1 storeAlice accC7 ksC7 [] 991 "alice"
      rfl rfl rfl (by decide),
   currently_signing_creation_only_sticky.2 storeAlice sessC4⟩

lemma scan_no_locks (store : Store) :
    ∀ (kss : List Keystore) (acc : ScanAcc),
      (∀ ks ∈ kss, ks.watching_only = true → store.get_lock ks.keyhash = Except.ok none) →
      ∃ acc2, scanKeystores store acc kss = Except.ok acc2 ∧
        (∀ p ∈ acc2.locks, p ∈ acc.locks ∨ p.2 = none) ∧
        (∀ x ∈ acc2.cosigner_list, x ∈ acc.cosigner_list ∨
          store.get_lock x = Except.ok none) := by
  intro kss
  induction kss with
  | nil =>
    intro acc _
    exact ⟨acc, rfl, fun p hp => Or.inl hp, fun x hx => Or.inl hx⟩
  | cons ks rest ih =>
    intro acc h
    have hrest : ∀ k2 ∈ rest, k2.watching_only = true →
        store.get_lock k2.keyhash = Except.ok none :=
      fun k2 hk2 => h k2 (List.mem_cons_of_mem ks hk2)
    by_cases hwo : ks.watching_only = false
    · obtain ⟨acc2, heq, hlocks, hcos⟩ :=
        ih { acc with keyhashes := acc.keyhashes ++ [ks.keyhash] } hrest
      refine ⟨acc2, ?_, ?_, ?_⟩
      · rw [scanKeystores, if_pos hwo]
        exact heq
      · exact hlocks
      · exact hcos
    · have hwo2 : ks.watching_only = true := by
        cases hv : ks.watching_only with
        | false => exact absurd hv hwo
        | true => rfl
      have hl : store.get_lock ks.keyhash = Except.ok none :=
        h ks (List.mem_cons_self ks rest) hwo2
      obtain ⟨acc2, heq, hlocks, hcos⟩ :=
        ih { acc with cosigner_list := acc.cosigner_list ++ [ks.keyhash],
                      locks := acc.locks ++ [(ks.keyhash, none)] } hrest
      refine ⟨acc2, ?_, ?_, ?_⟩
      · rw [scanKeystores, if_neg hwo, hl]
        exact heq
      · intro p hp
        rcases hlocks p hp with hin | hnone
        · rcases List.mem_append.mp hin with h1 | h2
          · exact Or.inl h1
          · have hp2 : p = (ks.keyhash, none) := by simpa using h2
            exact Or.inr (by rw [hp2])
        · exact Or.inr hnone
      · intro x hx
        rcases hcos x hx with hin | hok
        · rcases List.mem_append.mp hin with h1 | h2
          · exact Or.inl h1
          · have hx2 : x = ks.keyhash := by simpa using h2
            exact Or.inr (hx2 ▸ hl)
        · exact Or.inr hok

/-- C10: a session none of whose watched fingerprints holds a lock at
creation time — in particular one with an empty watched set, as for a
non-multisig wallet — is seeded at 600 (divisible by 10), so the
creation-time update evaluation already finds no lock, forces the
countdown to 0 and terminates the session as Completed at creation,
before any tick. -/
theorem no_lock_at_creation_completes (tx : Tx) (w : Wallet) (store : Store)
    (s : TimeoutWaitDialog)
    (hnl : ∀ ks ∈ w.keystores, ks.watching_only = true →
      store.get_lock ks.keyhash = Except.ok none)
    (hmk : mkTimeoutWaitDialog tx w store = Except.ok s) :
    s.st = SessState.completed ∧ s.time_left_int = 0 := by
  unfold mkTimeoutWaitDialog at hmk
  cases htx : tx.deser with
  | error m =>
    rw [htx] at hmk
    exact Except.noConfusion hmk
  | ok u =>
    rw [htx] at hmk
    have hscan : ∃ acc2,
        (if w.multisig then scanKeystores store initAcc w.keystores
         else Except.ok initAcc) = Except.ok acc2 ∧
        (∀ p ∈ acc2.locks, p.2 = none) ∧
        (∀ x ∈ acc2.cosigner_list, store.get_lock x = Except.ok none) := by
      by_cases hm : w.multisig
      · obtain ⟨acc2, heq, hlocks, hcos⟩ := scan_no_locks store w.keystores initAcc hnl
        refine ⟨acc2, by rw [if_pos hm, heq], ?_, ?_⟩
        · intro p hp
          rcases hlocks p hp with h1 | h2
          · exact absurd h1 (List.not_mem_nil p)
          · exact h2
        · intro x hx
          rcases hcos x hx with h1 | h2
          · exact absurd h1 (List.not_mem_nil x)
          · exact h2
      · exact ⟨initAcc, by rw [if_neg hm], fun p hp => absurd hp (List.not_mem_nil p),
          fun x hx => absurd hx (List.not_mem_nil x)⟩
    obtain ⟨acc2, heq, hlocks, hcos⟩ := hscan
    rw [heq] at hmk
    have hseed : seedTimeLeft store.current_time acc2.locks = DURATION_INT :=
      seed_all_none store.current_time acc2.locks hlocks
    have hlp : lockPresent store acc2.cosigner_list = Except.ok false :=
      lockPresent_all_absent store acc2.cosigner_list hcos
    replace hmk :
        (match TimeoutWaitDialog.update store
            { time_left_int := seedTimeLeft store.current_time acc2.locks,
              timed_out := false, currently_signing := acc2.currently_signing,
              keyhashes := acc2.keyhashes, cosigner_list := acc2.cosigner_list,
              st := SessState.active } with
         | Except.error _ => Except.error InitError.storeError
         | Except.ok s1 =>
           match TimeoutWaitDialog.update store s1 with
           | Except.error _ => Except.error InitError.storeError
           | Except.ok s2 => Except.ok s2) = Except.ok s := hmk
    have hmod0 : seedTimeLeft store.current_time acc2.locks % 10 = 0 := by
      rw [hseed]
      decide
    rw [update_no_lock store
      { time_left_int := seedTimeLeft store.current_time acc2.locks,
        timed_out := false, currently_signing := acc2.currently_signing,
        keyhashes := acc2.keyhashes, cosigner_list := acc2.cosigner_list,
        st := SessState.active } hmod0 hlp] at hmk
    replace hmk :
        (match TimeoutWaitDialog.update store
            { time_left_int := 0, timed_out := false,
              currently_signing := acc2.currently_signing,
              keyhashes := acc2.keyhashes, cosigner_list := acc2.cosigner_list,
              st := SessState.completed } with
         | Except.error _ => Except.error InitError.storeError
         | Except.ok s2 => Except.ok s2) = Except.ok s := hmk
    rw [update_no_lock store
      { time_left_int := 0, timed_out := false,
        currently_signing := acc2.currently_signing,
        keyhashes := acc2.keyhashes, cosigner_list := acc2.cosigner_list,
        st := SessState.completed } (show (0 : Int) % 10 = 0 by decide) hlp] at hmk
    injection hmk with h2
    rw [← h2]
    exact ⟨rfl, rfl⟩

/-- Witness for C10: a non-multisig wallet on an empty store; the
session is Completed with countdown 0 straight from the constructor. -/
theorem no_lock_at_creation_completes_witness :
    (∀ ks ∈ plainWallet.keystores, ks.watching_only = true →
      storeEmpty.get_lock ks.keyhash = Except.ok none) ∧
    mkTimeoutWaitDialog okTx plainWallet storeEmpty =
      Except.ok { time_left_int := 0, timed_out := false, currently_signing := none,
                  keyhashes := [], cosigner_list := [], st := SessState.completed } ∧
    ({ time_left_int := 0, timed_out := false, currently_signing := none,
       keyhashes := [], cosigner_list := [], st := SessState.completed }
        : TimeoutWaitDialog).st = SessState.completed ∧
    ({ time_left_int := 0, timed_out := false, currently_signing := none,
       keyhashes := [], cosigner_list := [], st := SessState.completed }
        : TimeoutWaitDialog).time_left_int = 0 :=
  ⟨fun ks hks _ => absurd hks (List.not_mem_nil ks), rfl,
    no_lock_at_creation_completes okTx plainWallet storeEmpty _
      (fun ks hks _ => absurd hks (List.not_mem_nil ks)) rfl⟩
